import Mathlib

/-!
Verification of the minicontainer isolation launcher.

This file gives a shallow embedding, in Lean 4, of the launcher subsystem of
the minicontainer runtime: the clone-flag derivation, the rootfs pivot
sequence (setup_rootfs), the proc mount (mount_proc), the child entry point
(child_func), the launchers (mount_exec, namespace_exec, spawn_process), the
cleanup operations (mount_cleanup, namespace_cleanup), and the SIGCHLD
handler installation (spawn_init_signals).

Kernel and libc effects are modelled by explicit environment records of
Booleans stating which system calls succeed, so every definition is an
executable Lean function translated line by line from the C source.
-/

set_option autoImplicit false

namespace MiniContainer

/-! ### Constants from the C headers -/

/-- Value of the SIGCHLD signal number on Linux (from signal.h). -/
def SIGCHLD : Nat := 17

/-- Value of the CLONE_NEWNS flag bit (from sched.h). -/
def CLONE_NEWNS : Nat := 0x00020000

/-- Value of the CLONE_NEWPID flag bit (from sched.h). -/
def CLONE_NEWPID : Nat := 0x20000000

/-! ### Configuration records (mount.h, namespace.h, spawn.h)

Nullable C pointers are modelled as Option values: `none` is NULL.
-/

/-- Embedding of mount_config_t from mount.h. -/
structure mount_config_t where
  program : Option String
  argv : Option (List String)
  envp : Option (List String)
  enable_debug : Bool
  enable_pid_namespace : Bool
  enable_mount_namespace : Bool
  rootfs_path : Option String
deriving DecidableEq

/-- Embedding of namespace_config_t from namespace.h. -/
structure namespace_config_t where
  program : Option String
  argv : Option (List String)
  envp : Option (List String)
  enable_debug : Bool
  enable_pid_namespace : Bool
deriving DecidableEq

/-- Embedding of spawn_config_t from spawn.h. -/
structure spawn_config_t where
  program : Option String
  argv : Option (List String)
  envp : Option (List String)
  enable_debug : Bool
deriving DecidableEq

/-! ### Clone flag derivation

The flag-building block of mount_exec in src/mount.c:

    int flags = SIGCHLD;
    if (config->enable_pid_namespace) { flags |= CLONE_NEWPID; }
    if (config->enable_mount_namespace) { flags |= CLONE_NEWNS; }

and the corresponding block of namespace_exec in src/namespace.c:

    int flags = SIGCHLD;
    if (config->enable_pid_namespace) { flags |= CLONE_NEWPID; }
-/

/-- Clone flags derived by mount_exec from its configuration. -/
def mount_exec_flags (config : mount_config_t) : Nat :=
  let flags := SIGCHLD
  let flags := if config.enable_pid_namespace then flags ||| CLONE_NEWPID else flags
  let flags := if config.enable_mount_namespace then flags ||| CLONE_NEWNS else flags
  flags

/-- Clone flags derived by namespace_exec from its configuration. -/
def namespace_exec_flags (config : namespace_config_t) : Nat :=
  let flags := SIGCHLD
  let flags := if config.enable_pid_namespace then flags ||| CLONE_NEWPID else flags
  flags

/-! ### Rootfs pivot (setup_rootfs in src/mount.c)

setup_rootfs issues a fixed straight-line sequence of system calls, each one
guarded by an early return -1 on failure, except the final rmdir whose result
is ignored.  The embedding records, for a given environment of system-call
outcomes, the trace of attempted operations together with the returned int.
-/

/-- One operation attempted by setup_rootfs, in source terms:
realpath, mount of / with MS_PRIVATE | MS_REC, self bind mount with
MS_BIND | MS_REC, mount of the bind target with MS_PRIVATE | MS_REC,
chdir to the target, mkdir of old_root, the pivot_root system call,
chdir to /, umount2 with MNT_DETACH, and the final rmdir. -/
inductive RootfsStep where
  | resolvePath
  | markRootPrivate
  | bindSelf
  | markBindPrivate
  | chdirNewRoot
  | mkdirOldRoot
  | pivotRoot
  | chdirRoot
  | detachOldRoot
  | rmdirOldRoot
deriving DecidableEq, Fintype, Repr

/-- Outcomes of the system calls issued by setup_rootfs.  mkdir_old_ok is
true when mkdir succeeds or fails with EEXIST, matching the guard
mkdir(put_old, 0700) < 0 && errno != EEXIST in the source. -/
structure RootfsEnv where
  realpath_ok : Bool
  mount_private_root_ok : Bool
  mount_bind_ok : Bool
  mount_private_bind_ok : Bool
  chdir_new_root_ok : Bool
  mkdir_old_ok : Bool
  pivot_ok : Bool
  chdir_root_ok : Bool
  umount_detach_ok : Bool
  rmdir_ok : Bool
deriving DecidableEq, Repr

/-- RootfsEnv is a record of ten Booleans, hence finite; this lets theorems
quantified over all outcome environments be settled by decide. -/
instance : Fintype RootfsEnv :=
  Fintype.ofEquiv
    (Bool × Bool × Bool × Bool × Bool × Bool × Bool × Bool × Bool × Bool)
    { toFun := fun x =>
        ⟨x.1, x.2.1, x.2.2.1, x.2.2.2.1, x.2.2.2.2.1, x.2.2.2.2.2.1,
         x.2.2.2.2.2.2.1, x.2.2.2.2.2.2.2.1, x.2.2.2.2.2.2.2.2.1,
         x.2.2.2.2.2.2.2.2.2⟩
      invFun := fun e =>
        (e.realpath_ok, e.mount_private_root_ok, e.mount_bind_ok,
         e.mount_private_bind_ok, e.chdir_new_root_ok, e.mkdir_old_ok,
         e.pivot_ok, e.chdir_root_ok, e.umount_detach_ok, e.rmdir_ok)
      left_inv := fun _ => rfl
      right_inv := fun _ => rfl }

/-- Body of setup_rootfs for a non-null rootfs_path, mirroring the source
order of src/mount.c: realpath first, then the MS_PRIVATE remount of /, then
the self bind mount, the separate MS_PRIVATE remount of the bind mount,
chdir, mkdir, pivot_root, chdir to /, the lazy detach, and last the
best-effort rmdir whose failure is ignored. -/
def setup_rootfs_run (env : RootfsEnv) : List RootfsStep × Int :=
  if !env.realpath_ok then
    ([.resolvePath], -1)
  else if !env.mount_private_root_ok then
    ([.resolvePath, .markRootPrivate], -1)
  else if !env.mount_bind_ok then
    ([.resolvePath, .markRootPrivate, .bindSelf], -1)
  else if !env.mount_private_bind_ok then
    ([.resolvePath, .markRootPrivate, .bindSelf, .markBindPrivate], -1)
  else if !env.chdir_new_root_ok then
    ([.resolvePath, .markRootPrivate, .bindSelf, .markBindPrivate,
      .chdirNewRoot], -1)
  else if !env.mkdir_old_ok then
    ([.resolvePath, .markRootPrivate, .bindSelf, .markBindPrivate,
      .chdirNewRoot, .mkdirOldRoot], -1)
  else if !env.pivot_ok then
    ([.resolvePath, .markRootPrivate, .bindSelf, .markBindPrivate,
      .chdirNewRoot, .mkdirOldRoot, .pivotRoot], -1)
  else if !env.chdir_root_ok then
    ([.resolvePath, .markRootPrivate, .bindSelf, .markBindPrivate,
      .chdirNewRoot, .mkdirOldRoot, .pivotRoot, .chdirRoot], -1)
  else if !env.umount_detach_ok then
    ([.resolvePath, .markRootPrivate, .bindSelf, .markBindPrivate,
      .chdirNewRoot, .mkdirOldRoot, .pivotRoot, .chdirRoot,
      .detachOldRoot], -1)
  else
    ([.resolvePath, .markRootPrivate, .bindSelf, .markBindPrivate,
      .chdirNewRoot, .mkdirOldRoot, .pivotRoot, .chdirRoot,
      .detachOldRoot, .rmdirOldRoot], 0)

/-- Embedding of setup_rootfs: a null rootfs_path returns 0 at once without
touching the mount table; otherwise the fixed sequence runs. -/
def setup_rootfs (rootfs_path : Option String) (env : RootfsEnv) :
    List RootfsStep × Int :=
  match rootfs_path with
  | none => ([], 0)
  | some _ => setup_rootfs_run env

/-- The order in which setup_rootfs attempts its ten operations in
src/mount.c, read off the source. -/
def rootfsCodeOrder : List RootfsStep :=
  [.resolvePath, .markRootPrivate, .bindSelf, .markBindPrivate,
   .chdirNewRoot, .mkdirOldRoot, .pivotRoot, .chdirRoot,
   .detachOldRoot, .rmdirOldRoot]

/-- The order claimed by the specification for the same ten operations:
mark-private of the inherited tree first, path resolution second. -/
def rootfsClaimOrder : List RootfsStep :=
  [.markRootPrivate, .resolvePath, .bindSelf, .markBindPrivate,
   .chdirNewRoot, .mkdirOldRoot, .pivotRoot, .chdirRoot,
   .detachOldRoot, .rmdirOldRoot]

/-- Environment in which every system call of the pivot succeeds. -/
def allOkRootfsEnv : RootfsEnv :=
  { realpath_ok := true, mount_private_root_ok := true, mount_bind_ok := true,
    mount_private_bind_ok := true, chdir_new_root_ok := true,
    mkdir_old_ok := true, pivot_ok := true, chdir_root_ok := true,
    umount_detach_ok := true, rmdir_ok := true }

/-! ### Proc mount (mount_proc in src/mount.c)

    int mount_proc(bool enable_debug){
        struct stat st;
        if(stat("/proc", &st) < 0 || !S_ISDIR(st.st_mode)){ ... return 0; }
        if(mount("proc", "/proc", "proc", 0 , NULL) < 0){ ... return -1; }
        return 0;
    }
-/

/-- Embedding of mount_proc.  proc_is_dir is true when stat succeeds and
reports a directory; proc_mount_ok is the outcome of the mount call.  The
first component of the result records whether the mount call was attempted
at all, the second is the returned int. -/
def mount_proc (proc_is_dir : Bool) (proc_mount_ok : Bool) : Bool × Int :=
  if !proc_is_dir then
    (false, 0)
  else if !proc_mount_ok then
    (true, -1)
  else
    (true, 0)

/-! ### Child entry point (child_func in src/mount.c) -/

/-- Environment of kernel outcomes visible to the child of mount_exec. -/
structure ChildEnv where
  rootfs : RootfsEnv
  proc_is_dir : Bool
  proc_mount_ok : Bool
  execve_ok : Bool
deriving DecidableEq, Repr

/-- How the child entry point ends: either the process image was replaced by
execve (control never comes back to child_func), or child_func returned the
given int, which the kernel turns into the child exit status. -/
inductive ChildOutcome where
  | execed
  | returned (code : Int)
deriving DecidableEq, Repr

/-- Embedding of child_func in src/mount.c: with a rootfs path, a failed
setup_rootfs or a failed mount_proc makes the function return -1 before the
exec; otherwise execve runs, and if execve comes back the function returns
127. -/
def child_func (rootfs_path : Option String) (env : ChildEnv) : ChildOutcome :=
  match rootfs_path with
  | some p =>
      if (setup_rootfs (some p) env.rootfs).2 < 0 then
        .returned (-1)
      else if (mount_proc env.proc_is_dir env.proc_mount_ok).2 < 0 then
        .returned (-1)
      else if env.execve_ok then .execed else .returned 127
  | none =>
      if env.execve_ok then .execed else .returned 127

/-- Embedding of child_func in src/namespace.c, which has no rootfs or proc
logic: execve at once, returning 127 when execve comes back. -/
def namespace_child_func (execve_ok : Bool) : ChildOutcome :=
  if execve_ok then .execed else .returned 127

/-! ### Wait status and its decoding

The kernel reports child termination to waitpid as either a normal exit
with an 8-bit code (WIFEXITED / WEXITSTATUS) or a signal death
(WIFSIGNALED / WTERMSIG).
-/

/-- Status reported by waitpid, already split the way the WIF macros do. -/
inductive WaitStatus where
  | exited (code : Nat)
  | signaled (sig : Nat)
deriving DecidableEq, Repr

/-- The exit status the parent observes when a clone child function returns
ret: the kernel passes ret to exit, and WEXITSTATUS keeps its low 8 bits,
so a returned -1 is observed as 255. -/
def exit_byte (ret : Int) : Nat := (ret % 256).toNat

/-- Wait status the parent observes for a mount_exec child: when the child
reached execve the status comes from the target program (target_status);
when child_func returned, the status is a normal exit with the low byte of
the returned value. -/
def child_wait_status (rootfs_path : Option String) (env : ChildEnv)
    (target_status : WaitStatus) : WaitStatus :=
  match child_func rootfs_path env with
  | .execed => target_status
  | .returned c => .exited (exit_byte c)

/-- Wait status the parent observes for a namespace_exec child. -/
def namespace_child_wait_status (execve_ok : Bool)
    (target_status : WaitStatus) : WaitStatus :=
  match namespace_child_func execve_ok with
  | .execed => target_status
  | .returned c => .exited (exit_byte c)

/-! ### Result records (mount.h, namespace.h, spawn.h) -/

/-- Embedding of mount_result_t.  stack_ptr models the void pointer as an
optional address, none being NULL. -/
structure mount_result_t where
  child_pid : Int
  exit_status : Int
  exited_normally : Bool
  signal : Int
  stack_ptr : Option Nat
deriving DecidableEq, Repr

/-- The zero-initialized mount_result_t ({0} in the source). -/
def mount_result_zero : mount_result_t :=
  { child_pid := 0, exit_status := 0, exited_normally := false,
    signal := 0, stack_ptr := none }

/-- Embedding of namespace_result_t (same five fields as mount_result_t). -/
structure namespace_result_t where
  child_pid : Int
  exit_status : Int
  exited_normally : Bool
  signal : Int
  stack_ptr : Option Nat
deriving DecidableEq, Repr

/-- The zero-initialized namespace_result_t. -/
def namespace_result_zero : namespace_result_t :=
  { child_pid := 0, exit_status := 0, exited_normally := false,
    signal := 0, stack_ptr := none }

/-- Embedding of spawn_result_t (no stack field: spawn uses fork). -/
structure spawn_result_t where
  child_pid : Int
  exit_status : Int
  exited_normally : Bool
  signal : Int
deriving DecidableEq, Repr

/-- The zero-initialized spawn_result_t. -/
def spawn_result_zero : spawn_result_t :=
  { child_pid := 0, exit_status := 0, exited_normally := false, signal := 0 }

/-! ### Status decoding blocks

mount_exec, namespace_exec and spawn_process each decode the wait status
with the same two branches:

    if (WIFEXITED(status)) {
        result.exited_normally = true;
        result.exit_status = WEXITSTATUS(status);
    } else if (WIFSIGNALED(status)) {
        result.exited_normally = false;
        result.signal = WTERMSIG(status);
        result.exit_status = 128 + result.signal;
    }
-/

/-- Status decoding of mount_exec in src/mount.c. -/
def mount_parse_status (status : WaitStatus) (r : mount_result_t) :
    mount_result_t :=
  match status with
  | .exited code =>
      { r with exited_normally := true, exit_status := (code : Int) }
  | .signaled sig =>
      { r with exited_normally := false, signal := (sig : Int),
               exit_status := 128 + (sig : Int) }

/-- Status decoding of namespace_exec in src/namespace.c. -/
def namespace_parse_status (status : WaitStatus) (r : namespace_result_t) :
    namespace_result_t :=
  match status with
  | .exited code =>
      { r with exited_normally := true, exit_status := (code : Int) }
  | .signaled sig =>
      { r with exited_normally := false, signal := (sig : Int),
               exit_status := 128 + (sig : Int) }

/-- Status decoding of spawn_process in src/spawn.c. -/
def spawn_parse_status (status : WaitStatus) (r : spawn_result_t) :
    spawn_result_t :=
  match status with
  | .exited code =>
      { r with exited_normally := true, exit_status := (code : Int) }
  | .signaled sig =>
      { r with exited_normally := false, signal := (sig : Int),
               exit_status := 128 + (sig : Int) }

/-! ### Launchers -/

/-- Abstract address of the 1 MiB stack buffer malloc hands out on
success; the only property used is that it is a non-null pointer. -/
def stackAddr : Nat := 1

/-- Parent-side environment of kernel and libc outcomes for mount_exec.
pid is the child id a successful clone returns (a value of pid_t, hence
nonnegative here, where clone failure is the separate clone_ok flag). -/
structure ExecEnv where
  malloc_ok : Bool
  clone_ok : Bool
  pid : Nat
  wait_ok : Bool
  child : ChildEnv
  target_status : WaitStatus
deriving DecidableEq, Repr

/-- Embedding of mount_exec in src/mount.c.  The second component of the
result is a ghost flag recording whether the malloc-allocated stack buffer
is still allocated when the function returns (the source stores the pointer
into result.stack_ptr right after malloc; the embedding records the value
the field holds at each return point).  Validation failure and malloc
failure return the sentinel with nothing allocated; clone failure frees the
stack and nulls the field; waitpid failure returns exit_status -1 without
freeing; otherwise the status is decoded. -/
def mount_exec (config : Option mount_config_t) (env : ExecEnv) :
    mount_result_t × Bool :=
  match config with
  | none => ({ mount_result_zero with child_pid := -1 }, false)
  | some c =>
    if c.program.isNone || c.argv.isNone then
      ({ mount_result_zero with child_pid := -1 }, false)
    else if !env.malloc_ok then
      ({ mount_result_zero with child_pid := -1 }, false)
    else if !env.clone_ok then
      ({ mount_result_zero with child_pid := -1, stack_ptr := none }, false)
    else
      let r := { mount_result_zero with
        child_pid := (env.pid : Int), stack_ptr := some stackAddr }
      if !env.wait_ok then
        ({ r with exit_status := -1 }, true)
      else
        (mount_parse_status
          (child_wait_status c.rootfs_path env.child env.target_status) r,
         true)

/-- Parent-side environment for namespace_exec; the child of namespace.c
only calls execve, so its environment is the single execve_ok flag. -/
structure NsExecEnv where
  malloc_ok : Bool
  clone_ok : Bool
  pid : Nat
  wait_ok : Bool
  execve_ok : Bool
  target_status : WaitStatus
deriving DecidableEq, Repr

/-- Embedding of namespace_exec in src/namespace.c, structured exactly like
mount_exec (validate, malloc, clone, waitpid, decode) with the namespace
child function and without rootfs logic. -/
def namespace_exec (config : Option namespace_config_t) (env : NsExecEnv) :
    namespace_result_t × Bool :=
  match config with
  | none => ({ namespace_result_zero with child_pid := -1 }, false)
  | some c =>
    if c.program.isNone || c.argv.isNone then
      ({ namespace_result_zero with child_pid := -1 }, false)
    else if !env.malloc_ok then
      ({ namespace_result_zero with child_pid := -1 }, false)
    else if !env.clone_ok then
      ({ namespace_result_zero with child_pid := -1, stack_ptr := none },
       false)
    else
      let r := { namespace_result_zero with
        child_pid := (env.pid : Int), stack_ptr := some stackAddr }
      if !env.wait_ok then
        ({ r with exit_status := -1 }, true)
      else
        (namespace_parse_status
          (namespace_child_wait_status env.execve_ok env.target_status) r,
         true)

/-- Parent-side environment for spawn_process (fork based, no stack). -/
structure SpawnEnv where
  fork_ok : Bool
  pid : Nat
  wait_ok : Bool
  execve_ok : Bool
  target_status : WaitStatus
deriving DecidableEq, Repr

/-- Exit of the fork child of spawn_process in src/spawn.c: execve, and
exit(127) when execve comes back.  none means the image was replaced. -/
def spawn_child_exit (execve_ok : Bool) : Option Nat :=
  if execve_ok then none else some 127

/-- Wait status the parent of spawn_process observes. -/
def spawn_child_wait_status (execve_ok : Bool) (target_status : WaitStatus) :
    WaitStatus :=
  match spawn_child_exit execve_ok with
  | none => target_status
  | some code => .exited code

/-- Embedding of spawn_process in src/spawn.c.  Unlike the clone-based
launchers, a waitpid failure here sets child_pid itself to -1. -/
def spawn_process (config : Option spawn_config_t) (env : SpawnEnv) :
    spawn_result_t :=
  match config with
  | none => { spawn_result_zero with child_pid := -1 }
  | some c =>
    if c.program.isNone || c.argv.isNone then
      { spawn_result_zero with child_pid := -1 }
    else if !env.fork_ok then
      { spawn_result_zero with child_pid := -1 }
    else
      let r := { spawn_result_zero with child_pid := (env.pid : Int) }
      if !env.wait_ok then
        { r with child_pid := -1 }
      else
        spawn_parse_status
          (spawn_child_wait_status env.execve_ok env.target_status) r

/-! ### Cleanup (mount_cleanup in src/mount.c, namespace_cleanup in
src/namespace.c)

    void mount_cleanup(mount_result_t *result) {
        if (result && result->stack_ptr) {
            free(result->stack_ptr);
            result->stack_ptr = NULL;
        }
    }

The state pairs the pointed-to result (none models a NULL result pointer)
with a ghost counter of free calls performed on the stack buffer, so that
absence of a double free is a statement about the counter.
-/

/-- State acted on by mount_cleanup. -/
structure MountCleanupState where
  result : Option mount_result_t
  frees : Nat
deriving DecidableEq, Repr

/-- Embedding of mount_cleanup. -/
def mount_cleanup (s : MountCleanupState) : MountCleanupState :=
  match s.result with
  | none => s
  | some r =>
    match r.stack_ptr with
    | some _ =>
        { result := some { r with stack_ptr := none }, frees := s.frees + 1 }
    | none => s

/-- State acted on by namespace_cleanup. -/
structure NsCleanupState where
  result : Option namespace_result_t
  frees : Nat
deriving DecidableEq, Repr

/-- Embedding of namespace_cleanup (same guard as mount_cleanup). -/
def namespace_cleanup (s : NsCleanupState) : NsCleanupState :=
  match s.result with
  | none => s
  | some r =>
    match r.stack_ptr with
    | some _ =>
        { result := some { r with stack_ptr := none }, frees := s.frees + 1 }
    | none => s

/-! ### SIGCHLD handling (src/spawn.c and src/main.c)

spawn.c installs sigchld_handler, which loops
while (waitpid(-1, NULL, WNOHANG) > 0), through spawn_init_signals, guarded
by a static flag so the handler is installed at most once.  main.c calls
spawn_init_signals before spawning and exits with code 1 when it fails.
-/

/-- Disposition of SIGCHLD: the default disposition, or the sigchld_handler
of spawn.c, which reaps every terminated child with
waitpid(-1, NULL, WNOHANG) in a loop. -/
inductive SigchldDisposition where
  | defaultDisposition
  | reapAllZombies
deriving DecidableEq, Repr

/-- Signal-handling state: the current SIGCHLD disposition and the static
guard flag of spawn.c. -/
structure SignalState where
  sigchld : SigchldDisposition
  installed : Bool
deriving DecidableEq, Repr

/-- State at program start: default disposition, flag clear. -/
def initialSignalState : SignalState :=
  { sigchld := .defaultDisposition, installed := false }

/-- Embedding of spawn_init_signals: a no-op returning 0 when already
installed; otherwise sigaction installs the reaping handler (returning 0)
or fails (returning -1, state unchanged). -/
def spawn_init_signals (sigaction_ok : Bool) (s : SignalState) :
    SignalState × Int :=
  if s.installed then
    (s, 0)
  else if sigaction_ok then
    ({ sigchld := .reapAllZombies, installed := true }, 0)
  else
    (s, -1)

/-- Signal setup main.c performs before any spawn: call spawn_init_signals
on the start state and abort (none) when it reports failure. -/
def main_signal_setup (sigaction_ok : Bool) : Option SignalState :=
  let r := spawn_init_signals sigaction_ok initialSignalState
  if r.2 < 0 then none else some r.1

/-! ### Concrete instances used in closed theorems -/

/-- A configuration with a rootfs path but mount-namespace isolation
switched off by the caller. -/
def c1FailingConfig : mount_config_t :=
  { program := some "/bin/sh"
    argv := some ["/bin/sh", "-c", "ls /"]
    envp := none
    enable_debug := false
    enable_pid_namespace := false
    enable_mount_namespace := false
    rootfs_path := some "./rootfs" }

/-- Child environment in which every kernel call succeeds. -/
def allOkChildEnv : ChildEnv :=
  { rootfs := allOkRootfsEnv
    proc_is_dir := true
    proc_mount_ok := true
    execve_ok := true }

/-- Child environment whose pivot_root call fails. -/
def c3SetupFailChildEnv : ChildEnv :=
  { allOkChildEnv with rootfs := { allOkRootfsEnv with pivot_ok := false } }

/-- Child environment whose execve call fails. -/
def c3ExecFailChildEnv : ChildEnv :=
  { allOkChildEnv with execve_ok := false }

/-- A valid configuration with no isolation requested. -/
def plainConfig : mount_config_t :=
  { program := some "/bin/true"
    argv := some ["/bin/true"]
    envp := none
    enable_debug := false
    enable_pid_namespace := false
    enable_mount_namespace := false
    rootfs_path := none }

/-- A valid namespace configuration with PID isolation requested. -/
def plainNsConfig : namespace_config_t :=
  { program := some "/bin/true"
    argv := some ["/bin/true"]
    envp := none
    enable_debug := false
    enable_pid_namespace := true }

/-- A valid spawn configuration. -/
def plainSpawnConfig : spawn_config_t :=
  { program := some "/bin/true"
    argv := some ["/bin/true"]
    envp := none
    enable_debug := false }

/-- Parent environment in which everything succeeds and the target program
dies of signal 15. -/
def sig15ExecEnv : ExecEnv :=
  { malloc_ok := true
    clone_ok := true
    pid := 1234
    wait_ok := true
    child := allOkChildEnv
    target_status := .signaled 15 }

/-- Namespace parent environment in which everything succeeds and the
target program dies of signal 15. -/
def sig15NsExecEnv : NsExecEnv :=
  { malloc_ok := true
    clone_ok := true
    pid := 1234
    wait_ok := true
    execve_ok := true
    target_status := .signaled 15 }

/-- Parent environment in which everything succeeds but execve fails
(nonexistent program path); the target status is irrelevant because the
image is never replaced. -/
def execFailExecEnv : ExecEnv :=
  { malloc_ok := true
    clone_ok := true
    pid := 1234
    wait_ok := true
    child := { allOkChildEnv with execve_ok := false }
    target_status := .exited 0 }

/-- Spawn environment in which fork and wait succeed but execve fails. -/
def execFailSpawnEnv : SpawnEnv :=
  { fork_ok := true
    pid := 1234
    wait_ok := true
    execve_ok := false
    target_status := .exited 0 }

/-- A configuration naming a nonexistent program, with both namespaces
requested, to observe the 127 convention under isolation flags. -/
def nonexistConfig : mount_config_t :=
  { program := some "/nonexistent/binary"
    argv := some ["/nonexistent/binary"]
    envp := none
    enable_debug := false
    enable_pid_namespace := true
    enable_mount_namespace := true
    rootfs_path := none }

/-- A spawn configuration naming a nonexistent program. -/
def nonexistSpawnConfig : spawn_config_t :=
  { program := some "/nonexistent/binary"
    argv := some ["/nonexistent/binary"]
    envp := none
    enable_debug := false }

/-! ### Helper lemmas -/

/-- Status decoding never touches child_pid (mount side). -/
theorem mount_parse_status_child_pid (st : WaitStatus) (r : mount_result_t) :
    (mount_parse_status st r).child_pid = r.child_pid := by
  cases st <;> simp [mount_parse_status]

/-- Status decoding never touches stack_ptr (mount side). -/
theorem mount_parse_status_stack_ptr (st : WaitStatus) (r : mount_result_t) :
    (mount_parse_status st r).stack_ptr = r.stack_ptr := by
  cases st <;> simp [mount_parse_status]

/-- Status decoding never touches child_pid (namespace side). -/
theorem namespace_parse_status_child_pid (st : WaitStatus)
    (r : namespace_result_t) :
    (namespace_parse_status st r).child_pid = r.child_pid := by
  cases st <;> simp [namespace_parse_status]

/-- Status decoding never touches stack_ptr (namespace side). -/
theorem namespace_parse_status_stack_ptr (st : WaitStatus)
    (r : namespace_result_t) :
    (namespace_parse_status st r).stack_ptr = r.stack_ptr := by
  cases st <;> simp [namespace_parse_status]

/-- When child_func returns, the parent observes a normal exit carrying the
low byte of the returned value. -/
theorem child_wait_status_of_returned (rp : Option String) (env : ChildEnv)
    (ts : WaitStatus) (c : Int) (h : child_func rp env = .returned c) :
    child_wait_status rp env ts = .exited (exit_byte c) := by
  simp [child_wait_status, h]

/-- The low exit byte of the int -1 is 255. -/
theorem exit_byte_neg_one : exit_byte (-1) = 255 := by decide

/-- The low exit byte of 127 is 127. -/
theorem exit_byte_127 : exit_byte 127 = 127 := by decide

/-- Shape of a mount_exec run that passes validation, malloc and clone:
the reported child id is the clone pid and the stack is live on return. -/
theorem mount_exec_success_shape (c : mount_config_t) (env : ExecEnv)
    (hv : (c.program.isNone || c.argv.isNone) = false)
    (hm : env.malloc_ok = true) (hcl : env.clone_ok = true) :
    (mount_exec (some c) env).1.child_pid = (env.pid : Int) ∧
    (mount_exec (some c) env).2 = true := by
  cases hw : env.wait_ok <;>
    simp [mount_exec, hv, hm, hcl, hw, mount_parse_status_child_pid]

/-- Shape of a namespace_exec run that passes validation, malloc and
clone. -/
theorem namespace_exec_success_shape (c : namespace_config_t)
    (env : NsExecEnv)
    (hv : (c.program.isNone || c.argv.isNone) = false)
    (hm : env.malloc_ok = true) (hcl : env.clone_ok = true) :
    (namespace_exec (some c) env).1.child_pid = (env.pid : Int) ∧
    (namespace_exec (some c) env).2 = true := by
  cases hw : env.wait_ok <;>
    simp [namespace_exec, hv, hm, hcl, hw, namespace_parse_status_child_pid]

/-! ### Claims -/

/-- C1: the claim states that for every configuration with rootfs_path set,
mount_exec includes CLONE_NEWNS in the derived clone flags even when the
caller passes enable_mount_namespace = false.  The flag-derivation block of
mount_exec contradicts this: CLONE_NEWNS is present exactly when
enable_mount_namespace is set, and rootfs_path never enters the
computation, so at the failing input (rootfs_path set,
enable_mount_namespace = false) the flags carry no CLONE_NEWNS and the
pivot would run in the host mount namespace, against the documented
precondition of setup_rootfs. -/
theorem c1_no_newns_forced_for_rootfs :
    c1FailingConfig.rootfs_path.isSome = true ∧
    c1FailingConfig.enable_mount_namespace = false ∧
    mount_exec_flags c1FailingConfig &&& CLONE_NEWNS = 0 ∧
    (∀ c : mount_config_t,
      mount_exec_flags c &&& CLONE_NEWNS =
        if c.enable_mount_namespace then CLONE_NEWNS else 0) := by
  refine ⟨rfl, rfl, by decide, ?_⟩
  intro c
  cases hp : c.enable_pid_namespace <;> cases hm : c.enable_mount_namespace <;>
    simp only [mount_exec_flags, hp, hm, if_true, if_false] <;> decide

/-- C2 counterexample: the claim states that the program never installs a
background SIGCHLD handler that reaps children on its own.  In fact the
signal setup main.c performs before spawning leaves SIGCHLD bound to the
reap-all-zombies handler of spawn.c, not to the default disposition. -/
theorem c2_counterexample :
    main_signal_setup true =
      some { sigchld := .reapAllZombies, installed := true } ∧
    SigchldDisposition.reapAllZombies ≠ .defaultDisposition := by
  exact ⟨rfl, by decide⟩

/-- C2 amended: main.c does install a background SIGCHLD reaper before its
blocking waitpid: the pre-spawn signal setup binds SIGCHLD to the handler
that loops waitpid(-1, NULL, WNOHANG); the static guard makes a second
installation a no-op; and when sigaction fails main aborts before
spawning. -/
theorem c2_sigchld_reaper_installed :
    main_signal_setup true =
      some { sigchld := .reapAllZombies, installed := true } ∧
    (∀ (d : SigchldDisposition) (ok : Bool),
      spawn_init_signals ok { sigchld := d, installed := true } =
        ({ sigchld := d, installed := true }, 0)) ∧
    main_signal_setup false = none := by
  refine ⟨rfl, ?_, rfl⟩
  intro d ok
  simp [spawn_init_signals]

/-- C10: calling the cleanup operations on a NULL result pointer is a safe
no-op: nothing is dereferenced and the count of free calls is unchanged. -/
theorem c10_cleanup_null_is_noop (n m : Nat) :
    mount_cleanup { result := none, frees := n } =
      { result := none, frees := n } ∧
    namespace_cleanup { result := none, frees := m } =
      { result := none, frees := m } :=
  ⟨rfl, rfl⟩

/-- C8: cleanup is idempotent.  A second invocation on any state equals a
single invocation (so it frees nothing further), one invocation performs at
most one free, and an invocation on a result whose stack handle is already
null leaves the state untouched; the same holds on the namespace side. -/
theorem c8_cleanup_idempotent (s : MountCleanupState) (t : NsCleanupState)
    (pid es sg : Int) (b : Bool) (n : Nat)
    (pid2 es2 sg2 : Int) (b2 : Bool) (m : Nat) :
    mount_cleanup (mount_cleanup s) = mount_cleanup s ∧
    (mount_cleanup s).frees ≤ s.frees + 1 ∧
    mount_cleanup ⟨some ⟨pid, es, b, sg, none⟩, n⟩ =
      (⟨some ⟨pid, es, b, sg, none⟩, n⟩ : MountCleanupState) ∧
    namespace_cleanup (namespace_cleanup t) = namespace_cleanup t ∧
    (namespace_cleanup t).frees ≤ t.frees + 1 ∧
    namespace_cleanup ⟨some ⟨pid2, es2, b2, sg2, none⟩, m⟩ =
      (⟨some ⟨pid2, es2, b2, sg2, none⟩, m⟩ : NsCleanupState) := by
  obtain ⟨r, k⟩ := s
  obtain ⟨r2, k2⟩ := t
  refine ⟨?_, ?_, rfl, ?_, ?_, rfl⟩
  · cases r with
    | none => rfl
    | some r =>
        cases h : r.stack_ptr <;> simp [mount_cleanup, h]
  · cases r with
    | none => simp [mount_cleanup]
    | some r =>
        cases h : r.stack_ptr <;> simp [mount_cleanup, h]
  · cases r2 with
    | none => rfl
    | some r2 =>
        cases h : r2.stack_ptr <;> simp [namespace_cleanup, h]
  · cases r2 with
    | none => simp [namespace_cleanup]
    | some r2 =>
        cases h : r2.stack_ptr <;> simp [namespace_cleanup, h]

/-- C3 counterexample: the claim states that an isolation-setup failure and
an exec failure reach the parent with the same exit code.  At concrete
inputs, a failed pivot makes the child exit with code 255 (the returned -1
truncated to a byte) while a failed execve makes it exit with 127, so the
codes differ and the parent can tell the cases apart. -/
theorem c3_counterexample :
    child_wait_status (some "./rootfs") c3SetupFailChildEnv (.exited 0) =
      .exited 255 ∧
    child_wait_status (some "./rootfs") c3ExecFailChildEnv (.exited 0) =
      .exited 127 ∧
    (255 : Nat) ≠ 127 := by decide

/-- C3 amended: a child-internal isolation-setup failure (rootfs pivot
failure or proc-mount failure) surfaces as a normal non-signal termination
with exit code 255, while a target-program exec failure surfaces as a
normal non-signal termination with exit code 127; both are ordinary exits,
but the exit codes differ, so the parent-visible result does distinguish
the two cases. -/
theorem c3_setup_vs_exec_failure_codes (p : String) (env : ChildEnv)
    (ts : WaitStatus) :
    ((setup_rootfs (some p) env.rootfs).2 < 0 →
      child_wait_status (some p) env ts = .exited 255) ∧
    ((setup_rootfs (some p) env.rootfs).2 = 0 →
      (mount_proc env.proc_is_dir env.proc_mount_ok).2 < 0 →
      child_wait_status (some p) env ts = .exited 255) ∧
    ((setup_rootfs (some p) env.rootfs).2 = 0 →
      (mount_proc env.proc_is_dir env.proc_mount_ok).2 = 0 →
      env.execve_ok = false →
      child_wait_status (some p) env ts = .exited 127) ∧
    (255 : Nat) ≠ 127 := by
  refine ⟨?_, ?_, ?_, by decide⟩
  · intro h
    have hc : child_func (some p) env = .returned (-1) := by
      simp [child_func, h]
    rw [child_wait_status_of_returned _ _ _ _ hc, exit_byte_neg_one]
  · intro h1 h2
    have hc : child_func (some p) env = .returned (-1) := by
      simp [child_func, h1, h2]
    rw [child_wait_status_of_returned _ _ _ _ hc, exit_byte_neg_one]
  · intro h1 h2 h3
    have hc : child_func (some p) env = .returned 127 := by
      simp [child_func, h1, h2, h3]
    rw [child_wait_status_of_returned _ _ _ _ hc, exit_byte_127]

/-- C3 witness: the amended theorem applied at a pivot-failure environment
and at an exec-failure environment. -/
theorem c3_witness :
    child_wait_status (some "/newroot") c3SetupFailChildEnv (.exited 0) =
      .exited 255 ∧
    child_wait_status (some "/newroot") c3ExecFailChildEnv (.exited 0) =
      .exited 127 := by
  have h1 := c3_setup_vs_exec_failure_codes "/newroot" c3SetupFailChildEnv
    (.exited 0)
  have h2 := c3_setup_vs_exec_failure_codes "/newroot" c3ExecFailChildEnv
    (.exited 0)
  exact ⟨h1.1 (by decide), h2.2.2.1 (by decide) (by decide) (by decide)⟩

/-- C4 counterexample: the claim prescribes marking the inherited mount
tree private first and resolving the target path second; the trace of the
code at an all-success environment resolves the path first, so the claimed
sequence is not the one performed. -/
theorem c4_counterexample :
    (setup_rootfs (some "./rootfs") allOkRootfsEnv).1 = rootfsCodeOrder ∧
    rootfsCodeOrder ≠ rootfsClaimOrder := by decide

/-- C4 amended: for every non-null rootfs path, setup_rootfs performs
exactly this sequence in this order: resolve the target to an absolute
symlink-free path, recursively mark the inherited mount tree private,
recursively bind-mount the target onto itself, in a separate mount call
recursively mark the bind mount private, change into the target, create or
reuse an old-root subdirectory, pivot_root, change directory to the new
root, lazily detach the relocated old root, best-effort remove the
old-root directory.  Success (return 0) holds exactly when the first nine
operations succeed, regardless of the rmdir outcome; any failure among the
first nine aborts with the single return -1, the attempted operations
forming an initial segment of the sequence that stops before the rmdir. -/
theorem c4_pivot_sequence (p : String) (env : RootfsEnv) :
    ((setup_rootfs (some p) env).2 = 0 ↔
      (env.realpath_ok = true ∧ env.mount_private_root_ok = true ∧
       env.mount_bind_ok = true ∧ env.mount_private_bind_ok = true ∧
       env.chdir_new_root_ok = true ∧ env.mkdir_old_ok = true ∧
       env.pivot_ok = true ∧ env.chdir_root_ok = true ∧
       env.umount_detach_ok = true)) ∧
    ((setup_rootfs (some p) env).2 = 0 →
      (setup_rootfs (some p) env).1 = rootfsCodeOrder) ∧
    ((setup_rootfs (some p) env).2 ≠ 0 →
      (setup_rootfs (some p) env).2 = -1 ∧
      (setup_rootfs (some p) env).1 =
        rootfsCodeOrder.take (setup_rootfs (some p) env).1.length ∧
      (setup_rootfs (some p) env).1.length ≤ 9) := by
  have hrun : setup_rootfs (some p) env = setup_rootfs_run env := rfl
  rw [hrun]
  unfold setup_rootfs_run
  split_ifs <;> simp_all [rootfsCodeOrder]

/-- C4 witness: the amended theorem applied at the all-success
environment yields the exact source-order trace. -/
theorem c4_witness :
    (setup_rootfs (some "/newroot") allOkRootfsEnv).1 = rootfsCodeOrder := by
  have h := c4_pivot_sequence "/newroot" allOkRootfsEnv
  exact h.2.1 (by decide)

/-- C5: for every launch whose child is terminated by a signal s, the
returned result has exited_normally = false, signal = s and
exit_status = 128 + s, for mount_exec and namespace_exec alike. -/
theorem c5_signal_death (c : mount_config_t) (env : ExecEnv) (s : Nat)
    (nc : namespace_config_t) (nenv : NsExecEnv)
    (hv : (c.program.isNone || c.argv.isNone) = false)
    (hm : env.malloc_ok = true) (hcl : env.clone_ok = true)
    (hw : env.wait_ok = true)
    (hs : child_wait_status c.rootfs_path env.child env.target_status =
      .signaled s)
    (hv2 : (nc.program.isNone || nc.argv.isNone) = false)
    (hm2 : nenv.malloc_ok = true) (hcl2 : nenv.clone_ok = true)
    (hw2 : nenv.wait_ok = true)
    (hs2 : namespace_child_wait_status nenv.execve_ok nenv.target_status =
      .signaled s) :
    ((mount_exec (some c) env).1.exited_normally = false ∧
     (mount_exec (some c) env).1.signal = (s : Int) ∧
     (mount_exec (some c) env).1.exit_status = 128 + (s : Int)) ∧
    ((namespace_exec (some nc) nenv).1.exited_normally = false ∧
     (namespace_exec (some nc) nenv).1.signal = (s : Int) ∧
     (namespace_exec (some nc) nenv).1.exit_status = 128 + (s : Int)) := by
  constructor
  · simp [mount_exec, hv, hm, hcl, hw, hs, mount_parse_status]
  · simp [namespace_exec, hv2, hm2, hcl2, hw2, hs2, namespace_parse_status]

/-- C5 witness: a child that dies of signal 15 yields
exited_normally = false, signal = 15 and exit_status = 143, under both
launchers. -/
theorem c5_witness :
    ((mount_exec (some plainConfig) sig15ExecEnv).1.exited_normally = false ∧
     (mount_exec (some plainConfig) sig15ExecEnv).1.signal = 15 ∧
     (mount_exec (some plainConfig) sig15ExecEnv).1.exit_status = 143) ∧
    ((namespace_exec (some plainNsConfig) sig15NsExecEnv).1.exited_normally
        = false ∧
     (namespace_exec (some plainNsConfig) sig15NsExecEnv).1.signal = 15 ∧
     (namespace_exec (some plainNsConfig) sig15NsExecEnv).1.exit_status
        = 143) := by
  have h := c5_signal_death plainConfig sig15ExecEnv 15 plainNsConfig
    sig15NsExecEnv (by decide) rfl rfl rfl (by decide) (by decide) rfl rfl
    rfl (by decide)
  refine ⟨⟨h.1.1, ?_, ?_⟩, ⟨h.2.1, ?_, ?_⟩⟩
  · rw [h.1.2.1]; decide
  · rw [h.1.2.2]; decide
  · rw [h.2.2.1]; decide
  · rw [h.2.2.2]; decide

/-- C6: mount_proc succeeds without attempting any mount (returns 0) when
/proc is not a directory inside the new root, and the child then proceeds
to exec; when /proc is a directory and the proc mount fails, mount_proc
returns -1 and the child aborts before exec. -/
theorem c6_mount_proc_policy (pd pm : Bool) (p : String) (env : ChildEnv)
    (hsetup : (setup_rootfs (some p) env.rootfs).2 = 0) :
    (pd = false → mount_proc pd pm = (false, 0)) ∧
    (pd = true → pm = false → mount_proc pd pm = (true, -1)) ∧
    (env.proc_is_dir = true → env.proc_mount_ok = false →
      child_func (some p) env = .returned (-1)) ∧
    (env.proc_is_dir = false → env.execve_ok = true →
      child_func (some p) env = .execed) := by
  refine ⟨?_, ?_, ?_, ?_⟩
  · intro h; simp [mount_proc, h]
  · intro h1 h2; simp [mount_proc, h1, h2]
  · intro h1 h2; simp [child_func, hsetup, mount_proc, h1, h2]
  · intro h1 h2; simp [child_func, hsetup, mount_proc, h1, h2]

/-- C6 witness: the theorem applied at a missing /proc (skip, then exec)
and at a failing proc mount (hard failure before exec). -/
theorem c6_witness :
    mount_proc false true = (false, 0) ∧
    mount_proc true false = (true, -1) ∧
    child_func (some "/newroot") { allOkChildEnv with proc_mount_ok := false }
      = .returned (-1) ∧
    child_func (some "/newroot") { allOkChildEnv with proc_is_dir := false }
      = .execed := by
  have h1 := c6_mount_proc_policy false true "/newroot"
    { allOkChildEnv with proc_mount_ok := false } (by decide)
  have h2 := c6_mount_proc_policy true false "/newroot"
    { allOkChildEnv with proc_is_dir := false } (by decide)
  exact ⟨h1.1 rfl, h2.2.1 rfl rfl, h1.2.2.1 (by decide) (by decide),
    h2.2.2.2 (by decide) (by decide)⟩

/-- C7: whenever mount_exec or namespace_exec returns the failure sentinel
child_pid = -1, the returned stack_ptr is NULL and no stack buffer remains
allocated: validation and malloc failures allocate nothing, and clone
failure frees the allocated stack and nulls the field before returning. -/
theorem c7_fail_sentinel_releases_stack (config : Option mount_config_t)
    (env : ExecEnv) (ncfg : Option namespace_config_t) (nenv : NsExecEnv) :
    ((mount_exec config env).1.child_pid = -1 →
      (mount_exec config env).1.stack_ptr = none ∧
      (mount_exec config env).2 = false) ∧
    ((namespace_exec ncfg nenv).1.child_pid = -1 →
      (namespace_exec ncfg nenv).1.stack_ptr = none ∧
      (namespace_exec ncfg nenv).2 = false) := by
  constructor
  · cases config with
    | none => intro _; exact ⟨rfl, rfl⟩
    | some c =>
      intro h
      cases hv : (c.program.isNone || c.argv.isNone) with
      | true => constructor <;> simp [mount_exec, hv, mount_result_zero]
      | false =>
        cases hm : env.malloc_ok with
        | false => constructor <;> simp [mount_exec, hv, hm, mount_result_zero]
        | true =>
          cases hcl : env.clone_ok with
          | false => constructor <;> simp [mount_exec, hv, hm, hcl]
          | true =>
            exfalso
            have hp := (mount_exec_success_shape c env hv hm hcl).1
            rw [hp] at h
            omega
  · cases ncfg with
    | none => intro _; exact ⟨rfl, rfl⟩
    | some c =>
      intro h
      cases hv : (c.program.isNone || c.argv.isNone) with
      | true => constructor <;> simp [namespace_exec, hv, namespace_result_zero]
      | false =>
        cases hm : nenv.malloc_ok with
        | false => constructor <;> simp [namespace_exec, hv, hm, namespace_result_zero]
        | true =>
          cases hcl : nenv.clone_ok with
          | false => constructor <;> simp [namespace_exec, hv, hm, hcl]
          | true =>
            exfalso
            have hp := (namespace_exec_success_shape c nenv hv hm hcl).1
            rw [hp] at h
            omega

/-- C7 witness: the theorem applied at a NULL configuration, where both
launchers return the sentinel with a NULL stack handle and nothing
allocated. -/
theorem c7_witness :
    ((mount_exec none sig15ExecEnv).1.stack_ptr = none ∧
     (mount_exec none sig15ExecEnv).2 = false) ∧
    ((namespace_exec none sig15NsExecEnv).1.stack_ptr = none ∧
     (namespace_exec none sig15NsExecEnv).2 = false) := by
  have h := c7_fail_sentinel_releases_stack none sig15ExecEnv none
    sig15NsExecEnv
  exact ⟨h.1 rfl, h.2 rfl⟩

/-- C9: for every launch of a program whose execve fails, with any
namespace flags and either no rootfs or a fully successful setup, the
child reaches the exec, the exec comes back, the child exits with 127, and
the parent observes exited_normally = true with exit_status = 127; the
same convention holds for spawn_process. -/
theorem c9_exec_failure_observed_127 (c : mount_config_t) (env : ExecEnv)
    (sc : spawn_config_t) (senv : SpawnEnv)
    (hv : (c.program.isNone || c.argv.isNone) = false)
    (hm : env.malloc_ok = true) (hcl : env.clone_ok = true)
    (hw : env.wait_ok = true)
    (hexec : env.child.execve_ok = false)
    (hok : c.rootfs_path = none ∨
      ((setup_rootfs c.rootfs_path env.child.rootfs).2 = 0 ∧
       (mount_proc env.child.proc_is_dir env.child.proc_mount_ok).2 = 0))
    (hv2 : (sc.program.isNone || sc.argv.isNone) = false)
    (hf : senv.fork_ok = true) (hw2 : senv.wait_ok = true)
    (hexec2 : senv.execve_ok = false) :
    child_func c.rootfs_path env.child = .returned 127 ∧
    (mount_exec (some c) env).1.exited_normally = true ∧
    (mount_exec (some c) env).1.exit_status = 127 ∧
    (spawn_process (some sc) senv).exited_normally = true ∧
    (spawn_process (some sc) senv).exit_status = 127 := by
  have hcf : child_func c.rootfs_path env.child = .returned 127 := by
    rcases hok with hnone | ⟨h1, h2⟩
    · simp [child_func, hnone, hexec]
    · cases hr : c.rootfs_path with
      | none => simp [child_func, hexec]
      | some q =>
          rw [hr] at h1
          simp [child_func, h1, h2, hexec]
  have hws := child_wait_status_of_returned c.rootfs_path env.child
    env.target_status 127 hcf
  rw [exit_byte_127] at hws
  refine ⟨hcf, ?_, ?_, ?_, ?_⟩
  · simp [mount_exec, hv, hm, hcl, hw, hws, mount_parse_status]
  · simp [mount_exec, hv, hm, hcl, hw, hws, mount_parse_status]
  · simp [spawn_process, hv2, hf, hw2, spawn_child_wait_status,
      spawn_child_exit, hexec2, spawn_parse_status]
  · simp [spawn_process, hv2, hf, hw2, spawn_child_wait_status,
      spawn_child_exit, hexec2, spawn_parse_status]

/-- C9 witness: launching a nonexistent program with PID and mount
namespaces requested yields a normal termination with exit code 127, under
mount_exec and spawn_process alike. -/
theorem c9_witness :
    (mount_exec (some nonexistConfig) execFailExecEnv).1.exited_normally
      = true ∧
    (mount_exec (some nonexistConfig) execFailExecEnv).1.exit_status = 127 ∧
    (spawn_process (some nonexistSpawnConfig) execFailSpawnEnv).exited_normally = true ∧
    (spawn_process (some nonexistSpawnConfig) execFailSpawnEnv).exit_status = 127 := by
  have h := c9_exec_failure_observed_127 nonexistConfig execFailExecEnv
    nonexistSpawnConfig execFailSpawnEnv (by decide) rfl rfl rfl (by decide)
    (Or.inl rfl) (by decide) rfl rfl (by decide)
  exact ⟨h.2.1, h.2.2.1, h.2.2.2.1, h.2.2.2.2⟩

end MiniContainer
